import Mathlib

/-!
Shallow embedding of the crypto-security-scanner token-analysis pipeline:
volume scoring (`VolumeAnalyzer.analyze_volume` in both source variants),
the risk classifier (`RugCheckAPI.check_contract`), the blacklist store
(`BlacklistManager`), and the two per-token pipelines
(`perform_comprehensive_analysis` in crypto-filter-script.py and
`analyze_token` in project_crypto_security/crypto_security.py), plus the
batch wrappers `filter_tokens` and `analyze_tokens`.

Python dict values that participate in numeric comparisons are modelled by
`PyVal`: a rational number, or a non-numeric value whose ordered comparison
with a number raises `TypeError`.  Python exceptions are modelled with
`Except`: each pipeline has an `..._inner` function giving the body of the
source's try-block, and a wrapper modelling its except-handler.
`perform_comprehensive_analysis`'s handler only interpolates the caught
exception, so it always yields the fail-closed result; `analyze_token`'s
handler additionally evaluates `token_data.get('address', 'N/A')`, which
itself raises for the input Python `None` — that propagated exception is
kept as an `Except.error` result of the wrapper.
-/

/-- Value stored in a Python dict field: a number, or a non-numeric value
whose ordered comparison with a number raises. -/
inductive PyVal where
  | num (q : ℚ)
  | other
deriving DecidableEq

/-- Python `v > c` for a dict value `v` and numeric constant `c`:
`none` models a raised `TypeError`. -/
def PyVal.gtNum : PyVal → ℚ → Option Bool
  | .num q, c => some (decide (c < q))
  | .other, _ => none

/-- Python `v < c` for a dict value `v` and numeric constant `c`:
`none` models a raised `TypeError`. -/
def PyVal.ltNum : PyVal → ℚ → Option Bool
  | .num q, c => some (decide (q < c))
  | .other, _ => none

/-- The `volume_data` dictionary consumed by `analyze_volume`.  A `none`
field models an absent key (the source reads each key with
`volume_data.get(key, default)`).  Field name notes: `h1_volume` is the
source's `'1h_volume'` key, `h24_volume` is `'24h_volume'`,
`volume_liquidity_quot` is `'volume_liquidity_ratio'` and
`volume_spike_quot` is `'volume_spike_ratio'`. -/
structure VolumeData where
  total_volume : Option PyVal := none
  h1_volume : Option PyVal := none
  h24_volume : Option PyVal := none
  volume_liquidity_quot : Option PyVal := none
  volume_spike_quot : Option PyVal := none
deriving DecidableEq

/-- The five boolean checks built by `analyze_volume`'s `checks` list,
with each absent field replaced by its `.get` default (volumes 0,
liquidity 0, spike 1).  `none` models the construction of the list
raising (first non-numeric comparison aborts); the source's
except-handler then yields 0.0. -/
def VolumeData.checksE (vd : VolumeData) : Option (List Bool) :=
  match (vd.total_volume.getD (.num 0)).gtNum 1000,
        (vd.h1_volume.getD (.num 0)).gtNum 0,
        (vd.h24_volume.getD (.num 0)).gtNum 0,
        (vd.volume_liquidity_quot.getD (.num 0)).gtNum (1/10),
        (vd.volume_spike_quot.getD (.num 1)).ltNum 2 with
  | some c1, some c2, some c3, some c4, some c5 => some [c1, c2, c3, c4, c5]
  | _, _, _, _, _ => none

/-- Embedding of `VolumeAnalyzer.analyze_volume` from
project_crypto_security/volume_analyzer.py: `sum(checks)/len(checks)`,
and 0.0 from the except-handler on an internal fault. -/
def VolumeAnalyzer.analyze_volume (vd : VolumeData) : ℚ :=
  match vd.checksE with
  | some checks => ((checks.countP id : ℕ) : ℚ) / ((checks.length : ℕ) : ℚ)
  | none => 0

/-- Embedding of `VolumeAnalyzer.analyze_volume` from crypto-filter-script.py: identical
checks, with the result clamped by `max(0, min(1, legitimacy_score))`
inside the try-block. -/
def VolumeAnalyzer.analyze_volume_script (vd : VolumeData) : ℚ :=
  match vd.checksE with
  | some checks =>
      max 0 (min 1 (((checks.countP id : ℕ) : ℚ) / ((checks.length : ℕ) : ℚ)))
  | none => 0

/-- The `ContractRisk` enum (crypto-filter-script.py and
crypto_security.py). -/
inductive ContractRisk where
  | SAFE
  | LOW_RISK
  | MEDIUM_RISK
  | HIGH_RISK
  | DANGEROUS
deriving DecidableEq

/-- Python's `Enum.name` attribute for `ContractRisk`. -/
def ContractRisk.name : ContractRisk → String
  | .SAFE => "SAFE"
  | .LOW_RISK => "LOW_RISK"
  | .MEDIUM_RISK => "MEDIUM_RISK"
  | .HIGH_RISK => "HIGH_RISK"
  | .DANGEROUS => "DANGEROUS"

/-- Python's `ContractRisk[s]` name lookup; `none` models the raised
`KeyError` on an unknown name. -/
def ContractRisk.fromName : String → Option ContractRisk
  | "SAFE" => some .SAFE
  | "LOW_RISK" => some .LOW_RISK
  | "MEDIUM_RISK" => some .MEDIUM_RISK
  | "HIGH_RISK" => some .HIGH_RISK
  | "DANGEROUS" => some .DANGEROUS
  | _ => none

/-- The `ContractAnalysis` dataclass, with its field defaults. -/
structure ContractAnalysis where
  token_address : String
  risk_level : ContractRisk := .HIGH_RISK
  is_honeypot : Bool := false
  is_verified : Bool := false
  is_bundled : Bool := false
  volume_legitimacy_score : ℚ := 0
  potential_issues : List String := []
deriving DecidableEq

/-- Response dictionary shape consumed by `RugCheckAPI.check_contract`'s
try-block (the source hardcodes `mock_response`; a real request may fail,
which the surrounding except-handler absorbs). -/
structure RugResponse where
  risk_level : String
  is_honeypot : Bool
  is_verified : Bool
  is_bundled : Bool
  potential_issues : List String
deriving DecidableEq

/-- The body of `RugCheckAPI.check_contract`'s try-block: `none` when the
lookup itself fails (`resp = none`) or when `ContractRisk[...]` raises on
an unknown risk-level name. -/
def RugCheckAPI.check_contract_attempt (resp : Option RugResponse)
    (token_address : String) : Option ContractAnalysis :=
  match resp with
  | none => none
  | some r =>
      match ContractRisk.fromName r.risk_level with
      | none => none
      | some rl =>
          some { token_address := token_address, risk_level := rl,
                 is_honeypot := r.is_honeypot, is_verified := r.is_verified,
                 is_bundled := r.is_bundled,
                 potential_issues := r.potential_issues }

/-- Embedding of `RugCheckAPI.check_contract`: the except-handler returns
`ContractAnalysis(token_address=token_address)` with every other field at
its dataclass default. -/
def RugCheckAPI.check_contract (resp : Option RugResponse)
    (token_address : String) : ContractAnalysis :=
  match RugCheckAPI.check_contract_attempt resp token_address with
  | some a => a
  | none => { token_address := token_address }

/-- The hardcoded `mock_response` of the source's `check_contract`. -/
def RugCheckAPI.mock_response (_token_address : String) : RugResponse :=
  { risk_level := "LOW_RISK", is_honeypot := false, is_verified := true,
    is_bundled := false, potential_issues := [] }

/-- In-memory blacklists dictionary: one set of addresses per category
(`self.blacklists` in blacklist_manager.py). -/
structure Blacklists where
  tokens : Finset String
  developers : Finset String
  contracts : Finset String
  domains : Finset String
deriving DecidableEq

/-- Category lookup, modelling `blacklist_type in self.blacklists`
followed by `self.blacklists[blacklist_type]`; `none` for an unknown
category. -/
def Blacklists.getCat (b : Blacklists) (ty : String) : Option (Finset String) :=
  if ty = "tokens" then some b.tokens
  else if ty = "developers" then some b.developers
  else if ty = "contracts" then some b.contracts
  else if ty = "domains" then some b.domains
  else none

/-- Category update, modelling assignment to
`self.blacklists[blacklist_type]`'s set. -/
def Blacklists.setCat (b : Blacklists) (ty : String) (s : Finset String) : Blacklists :=
  if ty = "tokens" then { b with tokens := s }
  else if ty = "developers" then { b with developers := s }
  else if ty = "contracts" then { b with contracts := s }
  else if ty = "domains" then { b with domains := s }
  else b

/-- The four empty sets (`_load_blacklists` on a missing or unreadable
file). -/
def Blacklists.empty : Blacklists := ⟨∅, ∅, ∅, ∅⟩

/-- Contents of the durable YAML file: the four category keys, each an
address list, missing keys defaulting to `[]` (`data.get(key, [])`). -/
structure BlacklistFile where
  tokens : List String := []
  developers : List String := []
  contracts : List String := []
  domains : List String := []
deriving DecidableEq

/-- Parsing a present file in `_load_blacklists`: each list becomes a set
verbatim — the source applies no lowercase normalization on load. -/
def Blacklists.ofFile (bf : BlacklistFile) : Blacklists :=
  { tokens := bf.tokens.toFinset, developers := bf.developers.toFinset,
    contracts := bf.contracts.toFinset, domains := bf.domains.toFinset }

/-- State of a `BlacklistManager`: the in-memory `self.blacklists` and the
denotation of the durable file (`none` when no file exists yet);
`_save_blacklists` rewrites the whole file from the in-memory sets. -/
structure BlacklistManager where
  blacklists : Blacklists
  file : Option Blacklists
deriving DecidableEq

/-- Embedding of `BlacklistManager.__init__` / `_load_blacklists`: `none` models a
missing or unreadable/corrupt file (both yield empty sets). -/
def BlacklistManager.load (f : Option BlacklistFile) : BlacklistManager :=
  match f with
  | some bf => { blacklists := .ofFile bf, file := some (.ofFile bf) }
  | none => { blacklists := .empty, file := none }

/-- Embedding of `add_to_blacklist`: no-op on an empty address or unknown category;
otherwise inserts `address.lower()` and saves the whole blacklists
dictionary to the file. -/
def BlacklistManager.add_to_blacklist (m : BlacklistManager) (ty a : String) :
    BlacklistManager :=
  if a = "" then m
  else
    match m.blacklists.getCat ty with
    | none => m
    | some s =>
        let bl := m.blacklists.setCat ty (insert a.toLower s)
        { blacklists := bl, file := some bl }

/-- Embedding of `remove_from_blacklist`: no-op on an unknown category; otherwise
discards `address.lower()` and saves. -/
def BlacklistManager.remove_from_blacklist (m : BlacklistManager) (ty a : String) :
    BlacklistManager :=
  match m.blacklists.getCat ty with
  | none => m
  | some s =>
      let bl := m.blacklists.setCat ty (s.erase a.toLower)
      { blacklists := bl, file := some bl }

/-- Embedding of `clear_blacklist`: empties the named set and saves; silent no-op on an
unknown category. -/
def BlacklistManager.clear_blacklist (m : BlacklistManager) (ty : String) :
    BlacklistManager :=
  match m.blacklists.getCat ty with
  | none => m
  | some _ =>
      let bl := m.blacklists.setCat ty ∅
      { blacklists := bl, file := some bl }

/-- Embedding of `is_blacklisted`: false on an unknown category, else tests
`address.lower()` against the stored set. -/
def BlacklistManager.is_blacklisted (m : BlacklistManager) (ty a : String) : Bool :=
  match m.blacklists.getCat ty with
  | none => false
  | some s => decide (a.toLower ∈ s)

/-- Embedding of `get_blacklist`: a copy of the named set, empty for an unknown
category. -/
def BlacklistManager.get_blacklist (m : BlacklistManager) (ty : String) : Finset String :=
  (m.blacklists.getCat ty).getD ∅

/-- A mutation of the blacklist store, for stating reachability. -/
inductive BlOp where
  | add (ty a : String)
  | remove (ty a : String)
  | clear (ty : String)

/-- Apply one mutation to the store. -/
def BlacklistManager.applyOp (m : BlacklistManager) : BlOp → BlacklistManager
  | .add ty a => m.add_to_blacklist ty a
  | .remove ty a => m.remove_from_blacklist ty a
  | .clear ty => m.clear_blacklist ty

/-- Apply a sequence of mutations to the store. -/
def BlacklistManager.applyOps (m : BlacklistManager) : List BlOp → BlacklistManager
  | [] => m
  | op :: ops => (m.applyOp op).applyOps ops

/-- A raw token dictionary.  `none` fields model absent keys.  The field
`volume_liquidity_quot` is the source's `'volume_liquidity_ratio'` key;
`extra` carries the free-form pass-through metadata (`symbol`, ...). -/
structure TokenRecord where
  address : Option String := none
  developer_address : Option String := none
  volume : Option PyVal := none
  volume_1h : Option PyVal := none
  volume_24h : Option PyVal := none
  volume_liquidity_quot : Option PyVal := none
  volume_spike : Option PyVal := none
  extra : List (String × String) := []
deriving DecidableEq

/-- The `volume_data` dictionary both pipelines build: every key present,
each value read from the token record with the documented default. -/
def extractVolumeData (t : TokenRecord) : VolumeData :=
  { total_volume := some (t.volume.getD (.num 0)),
    h1_volume := some (t.volume_1h.getD (.num 0)),
    h24_volume := some (t.volume_24h.getD (.num 0)),
    volume_liquidity_quot := some (t.volume_liquidity_quot.getD (.num 0)),
    volume_spike_quot := some (t.volume_spike.getD (.num 1)) }

/-- A Python exception class, as far as the pipelines distinguish them. -/
inductive PyErr where
  | keyErr
  | attrErr
  | typeErr
deriving DecidableEq

/-- The enriched dictionary returned by an accepted token in
`perform_comprehensive_analysis`: all original fields plus
`'volume_legitimacy_score'` and `'contract_risk_level'`. -/
structure AnalyzedToken where
  token : TokenRecord
  volume_legitimacy_score : ℚ
  contract_risk_level : String
deriving DecidableEq

/-- The try-block body of
`CryptoSecurityFilter.perform_comprehensive_analysis`.  The classifier is
the injected `self.rugcheck_api.check_contract` capability.  The result
carries the optional enriched record, the updated blacklist store, and
the list of addresses the classifier was invoked on.  A `none` input
models Python `None` (`.get` on it raises); a missing `'address'` key
raises at the `check_contract` call. -/
def perform_inner (classify : String → ContractAnalysis)
    (st : BlacklistManager) (input : Option TokenRecord) :
    Except PyErr (Option AnalyzedToken × BlacklistManager × List String) :=
  match input with
  | none => .error .attrErr
  | some token_data =>
      let volume_score :=
        VolumeAnalyzer.analyze_volume_script (extractVolumeData token_data)
      if volume_score < 1/2 then
        .ok (none, st, [])
      else
        match token_data.address with
        | none => .error .keyErr
        | some addr =>
            let contract_analysis := classify addr
            if contract_analysis.is_bundled = true
                ∨ contract_analysis.risk_level = ContractRisk.HIGH_RISK
                ∨ contract_analysis.risk_level = ContractRisk.DANGEROUS then
              let st1 := st.add_to_blacklist "tokens" addr
              let st2 := st1.add_to_blacklist "developers"
                (token_data.developer_address.getD "")
              .ok (none, st2, [addr])
            else
              .ok (some { token := token_data,
                          volume_legitimacy_score := volume_score,
                          contract_risk_level := contract_analysis.risk_level.name },
                   st, [addr])

/-- Embedding of `perform_comprehensive_analysis`: the except-handler converts any
uncaught fault into a `None` result, leaving the store as it was. -/
def perform_comprehensive_analysis (classify : String → ContractAnalysis)
    (st : BlacklistManager) (input : Option TokenRecord) :
    Option AnalyzedToken × BlacklistManager × List String :=
  match perform_inner classify st input with
  | .ok r => r
  | .error _ => (none, st, [])

/-- Embedding of `CryptoSecurityFilter.filter_tokens`: fold the pipeline over the input
list, appending each truthy (non-`None`) result. -/
def filter_tokens (classify : String → ContractAnalysis)
    (st : BlacklistManager) :
    List (Option TokenRecord) → List AnalyzedToken × BlacklistManager
  | [] => ([], st)
  | t :: ts =>
      let r := perform_comprehensive_analysis classify st t
      let rest := filter_tokens classify r.2.1 ts
      match r.1 with
      | some a => (a :: rest.1, rest.2)
      | none => rest

/-- Outcome recorded per backend by `APIManager.analyze_token`: the
backend's response dictionary, or the `{'error': str(e)}` entry produced
by its per-backend except-handler. -/
inductive ApiOutcome where
  | ok (payload : List (String × String))
  | err (msg : String)
deriving DecidableEq

/-- One configured API backend: its registry name and its
`validate_token` behaviour (`.error` models a raised exception). -/
structure ApiBackend where
  name : String
  validate : String → Except String (List (String × String))

/-- Embedding of `APIManager.analyze_token`: query every configured backend, recording
each backend's result-or-error independently. -/
def APIManager.analyze_token (apis : List ApiBackend) (addr : String) :
    List (String × ApiOutcome) :=
  apis.map fun b =>
    (b.name,
     match b.validate addr with
     | .ok v => .ok v
     | .error e => .err e)

/-- Embedding of `CryptoSecurityFilter._calculate_risk_level` from crypto_security.py:
placeholder logic, returns `MEDIUM_RISK` for every input. -/
def CryptoSecurityFilter.calculate_risk_level
    (_api_results : List (String × ApiOutcome)) (_volume_score : ℚ) :
    ContractRisk :=
  ContractRisk.MEDIUM_RISK

/-- The `analysis_result` dictionary of an accepted token in
`CryptoSecurityFilter.analyze_token`: original fields plus
`'api_analysis'`, `'volume_score'` and `'risk_level'`. -/
structure AnalysisResult where
  token : TokenRecord
  api_analysis : List (String × ApiOutcome)
  volume_score : ℚ
  risk_level : String
deriving DecidableEq

/-- The try-block body of `CryptoSecurityFilter.analyze_token`
(crypto_security.py): the API-manager lookup on `token_data['address']`
runs first, before the volume check.  The second component records the
addresses the API manager was invoked on. -/
def analyze_token_inner (apis : List ApiBackend) (input : Option TokenRecord) :
    Except PyErr (Option AnalysisResult × List String) :=
  match input with
  | none => .error .typeErr
  | some token_data =>
      match token_data.address with
      | none => .error .keyErr
      | some addr =>
          let api_results := APIManager.analyze_token apis addr
          let volume_score :=
            VolumeAnalyzer.analyze_volume (extractVolumeData token_data)
          if volume_score < 1/2 then
            .ok (none, [addr])
          else
            .ok (some { token := token_data, api_analysis := api_results,
                        volume_score := volume_score,
                        risk_level :=
                          (CryptoSecurityFilter.calculate_risk_level
                            api_results volume_score).name },
                 [addr])

/-- Embedding of `CryptoSecurityFilter.analyze_token`: the except-handler
logs `f"Error analyzing token {token_data.get('address', 'N/A')}: {e}"`
before returning `None`.  For a dict input, `token_data.get` succeeds and
the handler returns `None`; for the input Python `None`, the handler's
own `token_data.get` raises `AttributeError`, which propagates to the
caller — so the result type is `Except`, and only dict inputs are
fail-closed. -/
def CryptoSecurityFilter.analyze_token (apis : List ApiBackend)
    (input : Option TokenRecord) :
    Except PyErr (Option AnalysisResult × List String) :=
  match analyze_token_inner apis input with
  | .ok r => .ok r
  | .error _ =>
      match input with
      | none => .error .attrErr
      | some _ => .ok (none, [])

/-- Embedding of `CryptoSecurityFilter.analyze_tokens`: fold
`analyze_token` over the input list, appending each truthy (non-`None`)
result; an exception escaping `analyze_token` propagates out of the loop
and aborts the batch. -/
def CryptoSecurityFilter.analyze_tokens (apis : List ApiBackend) :
    List (Option TokenRecord) → Except PyErr (List AnalysisResult)
  | [] => .ok []
  | t :: ts =>
      match CryptoSecurityFilter.analyze_token apis t with
      | .error e => .error e
      | .ok r =>
          match r.1 with
          | some a =>
              match CryptoSecurityFilter.analyze_tokens apis ts with
              | .error e => .error e
              | .ok rest => .ok (a :: rest)
          | none => CryptoSecurityFilter.analyze_tokens apis ts

/-- Output slot of one `analyze_token` call when the call returns a value
(`none` on the error branch, which a dict input never takes).  Used only
to state the batch refinement. -/
def analyze_token_out (apis : List ApiBackend) (t : Option TokenRecord) :
    Option AnalysisResult :=
  match CryptoSecurityFilter.analyze_token apis t with
  | .ok r => r.1
  | .error _ => none

/-- Lowercase invariant on one category set: every stored address equals
its own lowercasing. -/
def AllLowercase (s : Finset String) : Prop := ∀ a ∈ s, a.toLower = a

/-- Lowercase invariant on the whole in-memory blacklists dictionary. -/
def Blacklists.LowerInv (b : Blacklists) : Prop :=
  AllLowercase b.tokens ∧ AllLowercase b.developers ∧ AllLowercase b.contracts ∧ AllLowercase b.domains

/-- Lowercase condition on a durable file's four lists. -/
def BlacklistFile.LowerInv (bf : BlacklistFile) : Prop :=
  (∀ a ∈ bf.tokens, a.toLower = a) ∧ (∀ a ∈ bf.developers, a.toLower = a)
    ∧ (∀ a ∈ bf.contracts, a.toLower = a) ∧ (∀ a ∈ bf.domains, a.toLower = a)

/-- Freshly initialized blacklist store (no durable file yet). -/
def bm0 : BlacklistManager := BlacklistManager.load none

/-- Durable file holding one non-lowercase token address. -/
def fileUpper : BlacklistFile := { tokens := ["0xABC"] }

/-- Classifier stub: low risk, verified, not bundled. -/
def stubLow : String → ContractAnalysis := fun a =>
  { token_address := a, risk_level := .LOW_RISK, is_verified := true }

/-- Classifier stub: high risk, not bundled. -/
def stubHigh : String → ContractAnalysis := fun a =>
  { token_address := a, risk_level := .HIGH_RISK }

/-- One configured API backend that answers every address. -/
def apisStub : List ApiBackend := [{ name := "stub", validate := fun _ => .ok [] }]

/-- Accept-worthy token of pipeline scenario 1: all five volume checks
pass. -/
def tokAccept : TokenRecord :=
  { address := some "0xAAA", developer_address := some "0xDEV",
    volume := some (.num 5000), volume_1h := some (.num 500),
    volume_24h := some (.num 10000),
    volume_liquidity_quot := some (.num (2/10)),
    volume_spike := some (.num (3/2)) }

/-- Token scoring 2/5 = 0.4: only the total-volume and 24h checks pass. -/
def tok04 : TokenRecord :=
  { address := some "0xCCC", volume := some (.num 2000),
    volume_1h := some (.num 0), volume_24h := some (.num 500),
    volume_liquidity_quot := some (.num 0), volume_spike := some (.num 3) }

/-- Token scoring 3/5 = 0.6: total-volume, 24h and liquidity checks
pass. -/
def tok06 : TokenRecord :=
  { address := some "0xBBB", volume := some (.num 2000),
    volume_1h := some (.num 0), volume_24h := some (.num 500),
    volume_liquidity_quot := some (.num (2/10)),
    volume_spike := some (.num 3) }

/-- Volume-reject token of pipeline scenario 2: every check fails,
score 0. -/
def tokBadVol : TokenRecord :=
  { address := some "0xbad", volume := some (.num 100),
    volume_1h := some (.num 0), volume_24h := some (.num 0),
    volume_liquidity_quot := some (.num (5/100)),
    volume_spike := some (.num 3) }

/-- Token with an empty-string address but a perfect volume score. -/
def tokEmptyAddr : TokenRecord :=
  { address := some "", volume := some (.num 5000),
    volume_1h := some (.num 500), volume_24h := some (.num 10000),
    volume_liquidity_quot := some (.num (2/10)),
    volume_spike := some (.num (3/2)) }

/-- Token with a perfect volume score but no `'address'` key. -/
def tokNoAddr : TokenRecord :=
  { volume := some (.num 5000), volume_1h := some (.num 500),
    volume_24h := some (.num 10000),
    volume_liquidity_quot := some (.num (2/10)),
    volume_spike := some (.num (3/2)) }

/-- Volume dictionary whose five checks come out
`[true, true, true, true, false]`. -/
def vdW : VolumeData :=
  { total_volume := some (.num 2000), h1_volume := some (.num 5),
    h24_volume := some (.num 5),
    volume_liquidity_quot := some (.num (2/10)),
    volume_spike_quot := some (.num 3) }

/-- Per-token results of the whole batch with rejection slots kept,
threading the blacklist store left to right.  This is the specification
side of the `filter_tokens` refinement: the batch output should be
exactly this sequence with the `none` slots dropped. -/
def analyzeEachSpec (classify : String → ContractAnalysis)
    (st : BlacklistManager) :
    List (Option TokenRecord) → List (Option AnalyzedToken) × BlacklistManager
  | [] => ([], st)
  | t :: ts =>
      let r := perform_comprehensive_analysis classify st t
      let rest := analyzeEachSpec classify r.2.1 ts
      (r.1 :: rest.1, rest.2)

/-! Helper lemmas. -/

theorem charToNat_ofNat_valid (m : Nat) (h : m.isValidChar) : (Char.ofNat m).toNat = m := by
  simp [Char.ofNat, h, Char.ofNatAux, Char.toNat, UInt32.toNat, BitVec.toNat_ofNatLt]

theorem charToLower_idem (c : Char) : c.toLower.toLower = c.toLower := by
  unfold Char.toLower
  by_cases h : 65 ≤ c.toNat ∧ c.toNat ≤ 90
  · have hv : (c.toNat + 32).isValidChar := Or.inl (by omega)
    simp only [if_pos h, charToNat_ofNat_valid _ hv]
    have hno : ¬ (65 ≤ c.toNat + 32 ∧ c.toNat + 32 ≤ 90) := by omega
    rw [if_neg hno]
  · simp [h]

theorem stringToLower_idem (s : String) : s.toLower.toLower = s.toLower := by
  have hf : Char.toLower ∘ Char.toLower = Char.toLower := funext charToLower_idem
  simp [String.toLower, String.map_eq, List.map_map, hf]

theorem checksE_shape (vd : VolumeData) :
    vd.checksE = none ∨ ∃ c1 c2 c3 c4 c5, vd.checksE = some [c1, c2, c3, c4, c5] := by
  rw [VolumeData.checksE.eq_def]
  split
  · right; exact ⟨_, _, _, _, _, rfl⟩
  · left; rfl

theorem quotient_of_five_mem (n : ℕ) (hn : n ≤ 5) :
    ((n : ℚ) / 5) ∈ ({0, 1/5, 2/5, 3/5, 4/5, 1} : Finset ℚ) := by
  interval_cases n <;> norm_num [Finset.mem_insert]

theorem quotient_of_five_clamp (n : ℕ) (hn : n ≤ 5) :
    max 0 (min 1 ((n : ℚ) / 5)) = (n : ℚ) / 5 := by
  have h0 : (0 : ℚ) ≤ (n : ℚ) / 5 := by positivity
  have h1 : (n : ℚ) / 5 ≤ 1 := by
    rw [div_le_one (by norm_num)]
    exact_mod_cast hn.trans (by norm_num)
  rw [min_eq_right h1, max_eq_right h0]

theorem countP_five_le (c1 c2 c3 c4 c5 : Bool) :
    [c1, c2, c3, c4, c5].countP id ≤ 5 := by
  simpa using List.countP_le_length (p := id) (l := [c1, c2, c3, c4, c5])

theorem countP_five_mem (c1 c2 c3 c4 c5 : Bool) :
    ((([c1, c2, c3, c4, c5].countP id : ℕ) : ℚ) / (([c1, c2, c3, c4, c5].length : ℕ) : ℚ))
      ∈ ({0, 1/5, 2/5, 3/5, 4/5, 1} : Finset ℚ) := by
  simpa using quotient_of_five_mem _ (countP_five_le c1 c2 c3 c4 c5)

theorem countP_five_clamp (c1 c2 c3 c4 c5 : Bool) :
    max 0 (min 1 ((([c1, c2, c3, c4, c5].countP id : ℕ) : ℚ)
        / (([c1, c2, c3, c4, c5].length : ℕ) : ℚ)))
      = (([c1, c2, c3, c4, c5].countP id : ℕ) : ℚ)
        / (([c1, c2, c3, c4, c5].length : ℕ) : ℚ) := by
  simpa using quotient_of_five_clamp _ (countP_five_le c1 c2 c3 c4 c5)

theorem some_ne_none {α : Type} (a : α) : some a ≠ none := by simp

/-- C3: `analyze_volume` evaluates exactly five boolean checks and returns
(count of true checks) / 5, so its result lies in
{0, 0.2, 0.4, 0.6, 0.8, 1}; it is total, returns 0 on an internal fault
(a non-numeric comparison), and the crypto-filter-script variant's
clamping changes nothing. -/
theorem volume_score_five_checks (vd : VolumeData) :
    (∀ l, vd.checksE = some l →
        l.length = 5 ∧ VolumeAnalyzer.analyze_volume vd = ((l.countP id : ℕ) : ℚ) / 5)
    ∧ (vd.checksE = none → VolumeAnalyzer.analyze_volume vd = 0)
    ∧ VolumeAnalyzer.analyze_volume vd ∈ ({0, 1/5, 2/5, 3/5, 4/5, 1} : Finset ℚ)
    ∧ VolumeAnalyzer.analyze_volume_script vd = VolumeAnalyzer.analyze_volume vd := by
  rcases checksE_shape vd with h | ⟨c1, c2, c3, c4, c5, h⟩
  · refine ⟨?_, ?_, ?_, ?_⟩
    · intro l hl; rw [h] at hl; exact absurd hl.symm (some_ne_none l)
    · intro _; simp [VolumeAnalyzer.analyze_volume, h]
    · simp [VolumeAnalyzer.analyze_volume, h, Finset.mem_insert]
    · simp [VolumeAnalyzer.analyze_volume, VolumeAnalyzer.analyze_volume_script, h]
  · have hv : VolumeAnalyzer.analyze_volume vd
        = (([c1, c2, c3, c4, c5].countP id : ℕ) : ℚ) / 5 := by
      simp [VolumeAnalyzer.analyze_volume, h]
    have hs : VolumeAnalyzer.analyze_volume_script vd
        = max 0 (min 1 ((([c1, c2, c3, c4, c5].countP id : ℕ) : ℚ) / 5)) := by
      simp [VolumeAnalyzer.analyze_volume_script, h]
    refine ⟨?_, ?_, ?_, ?_⟩
    · intro l hl; rw [h] at hl
      injection hl with hl; subst hl
      exact ⟨rfl, hv⟩
    · intro h0; rw [h] at h0; exact absurd h0 (some_ne_none _)
    · rw [hv]; exact quotient_of_five_mem _ (countP_five_le c1 c2 c3 c4 c5)
    · rw [hv, hs]; exact quotient_of_five_clamp _ (countP_five_le c1 c2 c3 c4 c5)

theorem checksE_vdW : vdW.checksE = some [true, true, true, true, false] := by
  norm_num [vdW, VolumeData.checksE, PyVal.gtNum, PyVal.ltNum]

/-- Witness for C3 at a concrete volume dictionary whose checks come out
[true, true, true, true, false]. -/
theorem volume_score_five_checks_witness :
    vdW.checksE = some [true, true, true, true, false]
      ∧ VolumeAnalyzer.analyze_volume vdW = 4/5 := by
  refine ⟨checksE_vdW, ?_⟩
  have h := (volume_score_five_checks vdW).1 _ checksE_vdW
  rw [h.2]; norm_num [List.countP, List.countP.go]

theorem script_score_of_checksE {vd : VolumeData} {l : List Bool} (h : vd.checksE = some l) :
    VolumeAnalyzer.analyze_volume_script vd
      = max 0 (min 1 (((l.countP id : ℕ) : ℚ) / ((l.length : ℕ) : ℚ))) := by
  simp [VolumeAnalyzer.analyze_volume_script, h]

theorem plain_score_of_checksE {vd : VolumeData} {l : List Bool} (h : vd.checksE = some l) :
    VolumeAnalyzer.analyze_volume vd = ((l.countP id : ℕ) : ℚ) / ((l.length : ℕ) : ℚ) := by
  simp [VolumeAnalyzer.analyze_volume, h]

theorem checksE_tokAccept :
    (extractVolumeData tokAccept).checksE = some [true, true, true, true, true] := by
  norm_num [tokAccept, extractVolumeData, VolumeData.checksE, PyVal.gtNum, PyVal.ltNum]

theorem score_tokAccept :
    VolumeAnalyzer.analyze_volume_script (extractVolumeData tokAccept) = 1 := by
  rw [script_score_of_checksE checksE_tokAccept]
  norm_num [List.countP, List.countP.go]

theorem checksE_tok04 :
    (extractVolumeData tok04).checksE = some [true, false, true, false, false] := by
  norm_num [tok04, extractVolumeData, VolumeData.checksE, PyVal.gtNum, PyVal.ltNum]

theorem score_tok04 :
    VolumeAnalyzer.analyze_volume_script (extractVolumeData tok04) = 2/5 := by
  rw [script_score_of_checksE checksE_tok04]
  norm_num [List.countP, List.countP.go]

theorem checksE_tok06 :
    (extractVolumeData tok06).checksE = some [true, false, true, true, false] := by
  norm_num [tok06, extractVolumeData, VolumeData.checksE, PyVal.gtNum, PyVal.ltNum]

theorem score_tok06 :
    VolumeAnalyzer.analyze_volume_script (extractVolumeData tok06) = 3/5 := by
  rw [script_score_of_checksE checksE_tok06]
  norm_num [List.countP, List.countP.go]

theorem checksE_tokBadVol :
    (extractVolumeData tokBadVol).checksE = some [false, false, false, false, false] := by
  norm_num [tokBadVol, extractVolumeData, VolumeData.checksE, PyVal.gtNum, PyVal.ltNum]

theorem score_tokBadVol :
    VolumeAnalyzer.analyze_volume_script (extractVolumeData tokBadVol) = 0 := by
  rw [script_score_of_checksE checksE_tokBadVol]
  norm_num [List.countP, List.countP.go]

theorem plain_score_tokBadVol :
    VolumeAnalyzer.analyze_volume (extractVolumeData tokBadVol) = 0 := by
  rw [plain_score_of_checksE checksE_tokBadVol]
  norm_num [List.countP, List.countP.go]

theorem checksE_tokEmptyAddr :
    (extractVolumeData tokEmptyAddr).checksE = some [true, true, true, true, true] := by
  norm_num [tokEmptyAddr, extractVolumeData, VolumeData.checksE, PyVal.gtNum, PyVal.ltNum]

theorem score_tokEmptyAddr :
    VolumeAnalyzer.analyze_volume_script (extractVolumeData tokEmptyAddr) = 1 := by
  rw [script_score_of_checksE checksE_tokEmptyAddr]
  norm_num [List.countP, List.countP.go]

theorem checksE_tokNoAddr :
    (extractVolumeData tokNoAddr).checksE = some [true, true, true, true, true] := by
  norm_num [tokNoAddr, extractVolumeData, VolumeData.checksE, PyVal.gtNum, PyVal.ltNum]

theorem score_tokNoAddr :
    VolumeAnalyzer.analyze_volume_script (extractVolumeData tokNoAddr) = 1 := by
  rw [script_score_of_checksE checksE_tokNoAddr]
  norm_num [List.countP, List.countP.go]

theorem plain_score_tokAccept :
    VolumeAnalyzer.analyze_volume (extractVolumeData tokAccept) = 1 := by
  rw [plain_score_of_checksE checksE_tokAccept]
  norm_num [List.countP, List.countP.go]

theorem perform_volume_reject (classify : String → ContractAnalysis)
    (st : BlacklistManager) (t : TokenRecord)
    (h : VolumeAnalyzer.analyze_volume_script (extractVolumeData t) < 1/2) :
    perform_comprehensive_analysis classify st (some t) = (none, st, []) := by
  simp only [perform_comprehensive_analysis, perform_inner]
  rw [if_pos h]

theorem perform_inner_pass (classify : String → ContractAnalysis)
    (st : BlacklistManager) (t : TokenRecord) (a : String) (ha : t.address = some a)
    (h : ¬ VolumeAnalyzer.analyze_volume_script (extractVolumeData t) < 1/2) :
    perform_inner classify st (some t) =
      (if (classify a).is_bundled = true
          ∨ (classify a).risk_level = ContractRisk.HIGH_RISK
          ∨ (classify a).risk_level = ContractRisk.DANGEROUS then
        Except.ok (none,
          (st.add_to_blacklist "tokens" a).add_to_blacklist "developers"
            (t.developer_address.getD ""), [a])
      else
        Except.ok (some { token := t,
                          volume_legitimacy_score :=
                            VolumeAnalyzer.analyze_volume_script (extractVolumeData t),
                          contract_risk_level := (classify a).risk_level.name },
          st, [a])) := by
  simp only [perform_inner]
  rw [if_neg h, ha]

theorem perform_pass_risk (classify : String → ContractAnalysis)
    (st : BlacklistManager) (t : TokenRecord) (a : String) (ha : t.address = some a)
    (h : ¬ VolumeAnalyzer.analyze_volume_script (extractVolumeData t) < 1/2)
    (hc : (classify a).is_bundled = true
        ∨ (classify a).risk_level = ContractRisk.HIGH_RISK
        ∨ (classify a).risk_level = ContractRisk.DANGEROUS) :
    perform_comprehensive_analysis classify st (some t)
      = (none, (st.add_to_blacklist "tokens" a).add_to_blacklist "developers"
          (t.developer_address.getD ""), [a]) := by
  unfold perform_comprehensive_analysis
  rw [perform_inner_pass classify st t a ha h, if_pos hc]

theorem perform_pass_ok (classify : String → ContractAnalysis)
    (st : BlacklistManager) (t : TokenRecord) (a : String) (ha : t.address = some a)
    (h : ¬ VolumeAnalyzer.analyze_volume_script (extractVolumeData t) < 1/2)
    (hc : ¬ ((classify a).is_bundled = true
        ∨ (classify a).risk_level = ContractRisk.HIGH_RISK
        ∨ (classify a).risk_level = ContractRisk.DANGEROUS)) :
    perform_comprehensive_analysis classify st (some t)
      = (some { token := t,
                volume_legitimacy_score :=
                  VolumeAnalyzer.analyze_volume_script (extractVolumeData t),
                contract_risk_level := (classify a).risk_level.name },
        st, [a]) := by
  unfold perform_comprehensive_analysis
  rw [perform_inner_pass classify st t a ha h, if_neg hc]

theorem perform_trace_pass (classify : String → ContractAnalysis)
    (st : BlacklistManager) (t : TokenRecord) (a : String) (ha : t.address = some a)
    (h : ¬ VolumeAnalyzer.analyze_volume_script (extractVolumeData t) < 1/2) :
    (perform_comprehensive_analysis classify st (some t)).2.2 = [a] := by
  by_cases hc : (classify a).is_bundled = true
      ∨ (classify a).risk_level = ContractRisk.HIGH_RISK
      ∨ (classify a).risk_level = ContractRisk.DANGEROUS
  · rw [perform_pass_risk classify st t a ha h hc]
  · rw [perform_pass_ok classify st t a ha h hc]

/-- C2: the pipeline rejects on the suspicious-volume path exactly when
the volume score is strictly below 0.5 (given the token carries an
address): a sub-threshold score yields the rejection result with the
classifier never invoked, a score at or above 0.5 — including exactly
0.5 — proceeds to classification (the classifier is invoked on the
token's address). -/
theorem volume_threshold_exact (classify : String → ContractAnalysis)
    (st : BlacklistManager) (t : TokenRecord) (a : String)
    (ha : t.address = some a) :
    (VolumeAnalyzer.analyze_volume_script (extractVolumeData t) < 1/2
        ↔ (perform_comprehensive_analysis classify st (some t)).2.2 = [])
    ∧ (VolumeAnalyzer.analyze_volume_script (extractVolumeData t) < 1/2
        → perform_comprehensive_analysis classify st (some t) = (none, st, []))
    ∧ (¬ VolumeAnalyzer.analyze_volume_script (extractVolumeData t) < 1/2
        → (perform_comprehensive_analysis classify st (some t)).2.2 = [a])
    ∧ (VolumeAnalyzer.analyze_volume_script (extractVolumeData t) = 1/2
        → (perform_comprehensive_analysis classify st (some t)).2.2 = [a]) := by
  by_cases h : VolumeAnalyzer.analyze_volume_script (extractVolumeData t) < 1/2
  · refine ⟨⟨fun _ => ?_, fun _ => h⟩, fun _ => perform_volume_reject classify st t h, ?_, ?_⟩
    · rw [perform_volume_reject classify st t h]
    · intro hn; exact absurd h hn
    · intro he; rw [he] at h; exact absurd h (by norm_num)
  · have htr := perform_trace_pass classify st t a ha h
    refine ⟨⟨fun hlt => absurd hlt h, fun hemp => ?_⟩, fun hlt => absurd hlt h,
      fun _ => htr, fun _ => htr⟩
    rw [htr] at hemp
    exact absurd hemp (by simp)

/-- Witness for C2: the 0.4-scoring token is rejected with the classifier
uninvoked, the 0.6-scoring token proceeds to classification. -/
theorem volume_threshold_exact_witness :
    tok04.address = some "0xCCC"
    ∧ VolumeAnalyzer.analyze_volume_script (extractVolumeData tok04) < 1/2
    ∧ perform_comprehensive_analysis stubLow bm0 (some tok04) = (none, bm0, [])
    ∧ tok06.address = some "0xBBB"
    ∧ ¬ VolumeAnalyzer.analyze_volume_script (extractVolumeData tok06) < 1/2
    ∧ (perform_comprehensive_analysis stubLow bm0 (some tok06)).2.2 = ["0xBBB"] := by
  have h04 : VolumeAnalyzer.analyze_volume_script (extractVolumeData tok04) < 1/2 := by
    rw [score_tok04]; norm_num
  have h06 : ¬ VolumeAnalyzer.analyze_volume_script (extractVolumeData tok06) < 1/2 := by
    rw [score_tok06]; norm_num
  refine ⟨rfl, h04, ?_, rfl, h06, ?_⟩
  · exact (volume_threshold_exact stubLow bm0 tok04 "0xCCC" rfl).2.1 h04
  · exact (volume_threshold_exact stubLow bm0 tok06 "0xBBB" rfl).2.2.1 h06

theorem script_eq_plain (vd : VolumeData) :
    VolumeAnalyzer.analyze_volume_script vd = VolumeAnalyzer.analyze_volume vd := by
  rcases checksE_shape vd with h | ⟨c1, c2, c3, c4, c5, h⟩
  · simp [VolumeAnalyzer.analyze_volume, VolumeAnalyzer.analyze_volume_script, h]
  · rw [script_score_of_checksE h, plain_score_of_checksE h]
    exact countP_five_clamp c1 c2 c3 c4 c5

theorem analyze_token_volume_reject (apis : List ApiBackend) (t : TokenRecord)
    (a : String) (ha : t.address = some a)
    (h : VolumeAnalyzer.analyze_volume (extractVolumeData t) < 1/2) :
    CryptoSecurityFilter.analyze_token apis (some t) = .ok (none, [a]) := by
  simp only [CryptoSecurityFilter.analyze_token, analyze_token_inner, ha]
  rw [if_pos h]

theorem analyze_token_pass (apis : List ApiBackend) (t : TokenRecord)
    (a : String) (ha : t.address = some a)
    (h : ¬ VolumeAnalyzer.analyze_volume (extractVolumeData t) < 1/2) :
    CryptoSecurityFilter.analyze_token apis (some t)
      = .ok (some { token := t, api_analysis := APIManager.analyze_token apis a,
                    volume_score := VolumeAnalyzer.analyze_volume (extractVolumeData t),
                    risk_level := "MEDIUM_RISK" }, [a]) := by
  simp only [CryptoSecurityFilter.analyze_token, analyze_token_inner, ha]
  rw [if_neg h]
  rfl

/-- C10: a token rejected on the suspicious-volume path leaves the
blacklist store untouched — the returned store is the input store, so all
four category sets and the persisted file are unchanged. -/
theorem volume_reject_frame (classify : String → ContractAnalysis)
    (st : BlacklistManager) (t : TokenRecord)
    (h : VolumeAnalyzer.analyze_volume_script (extractVolumeData t) < 1/2) :
    perform_comprehensive_analysis classify st (some t) = (none, st, [])
    ∧ (perform_comprehensive_analysis classify st (some t)).2.1.blacklists = st.blacklists
    ∧ (perform_comprehensive_analysis classify st (some t)).2.1.file = st.file := by
  have he := perform_volume_reject classify st t h
  exact ⟨he, by rw [he], by rw [he]⟩

/-- Witness for C10 at the scenario-2 volume-reject token. -/
theorem volume_reject_frame_witness :
    VolumeAnalyzer.analyze_volume_script (extractVolumeData tokBadVol) < 1/2
    ∧ perform_comprehensive_analysis stubHigh bm0 (some tokBadVol) = (none, bm0, []) := by
  have h : VolumeAnalyzer.analyze_volume_script (extractVolumeData tokBadVol) < 1/2 := by
    rw [score_tokBadVol]; norm_num
  exact ⟨h, (volume_reject_frame stubHigh bm0 tokBadVol h).1⟩

/-- Counterexample to C5 as stated: in `analyze_token`
(crypto_security.py), the API-manager risk lookup runs before the volume
check, so a volume-rejected token still causes a classifier invocation
(the invocation trace is nonempty). -/
theorem classifier_invoked_on_volume_reject :
    VolumeAnalyzer.analyze_volume (extractVolumeData tokBadVol) < 1/2
    ∧ CryptoSecurityFilter.analyze_token apisStub (some tokBadVol) = .ok (none, ["0xbad"])
    ∧ CryptoSecurityFilter.analyze_token apisStub (some tokBadVol) ≠ .ok (none, []) := by
  have h : VolumeAnalyzer.analyze_volume (extractVolumeData tokBadVol) < 1/2 := by
    rw [plain_score_tokBadVol]; norm_num
  have he := analyze_token_volume_reject apisStub tokBadVol "0xbad" rfl h
  exact ⟨h, he, by rw [he]; simp⟩

/-- C5 amended: a token with volume score below 0.5 yields no output in
either pipeline; in `perform_comprehensive_analysis` the classifier is
never invoked (empty invocation trace, store unchanged), while in the
advisory `analyze_token` path the API-manager lookup is invoked exactly
once, before the volume check. -/
theorem volume_reject_classifier_paths (classify : String → ContractAnalysis)
    (st : BlacklistManager) (t : TokenRecord) (a : String)
    (ha : t.address = some a)
    (h : VolumeAnalyzer.analyze_volume_script (extractVolumeData t) < 1/2) :
    perform_comprehensive_analysis classify st (some t) = (none, st, [])
    ∧ ∀ apis, CryptoSecurityFilter.analyze_token apis (some t) = .ok (none, [a]) := by
  refine ⟨perform_volume_reject classify st t h, fun apis => ?_⟩
  apply analyze_token_volume_reject apis t a ha
  rw [← script_eq_plain]
  exact h

/-- Witness for the amended C5 at the scenario-2 token. -/
theorem volume_reject_classifier_paths_witness :
    tokBadVol.address = some "0xbad"
    ∧ VolumeAnalyzer.analyze_volume_script (extractVolumeData tokBadVol) < 1/2
    ∧ perform_comprehensive_analysis stubLow bm0 (some tokBadVol) = (none, bm0, [])
    ∧ CryptoSecurityFilter.analyze_token apisStub (some tokBadVol) = .ok (none, ["0xbad"]) := by
  have h : VolumeAnalyzer.analyze_volume_script (extractVolumeData tokBadVol) < 1/2 := by
    rw [score_tokBadVol]; norm_num
  have hh := volume_reject_classifier_paths stubLow bm0 tokBadVol "0xbad" rfl h
  exact ⟨rfl, h, hh.1, hh.2 apisStub⟩

theorem perform_catch (classify : String → ContractAnalysis)
    (st : BlacklistManager) (input : Option TokenRecord) (e : PyErr)
    (h : perform_inner classify st input = .error e) :
    perform_comprehensive_analysis classify st input = (none, st, []) := by
  unfold perform_comprehensive_analysis
  rw [h]

theorem analyze_token_catch (apis : List ApiBackend) (t : TokenRecord)
    (e : PyErr) (h : analyze_token_inner apis (some t) = .error e) :
    CryptoSecurityFilter.analyze_token apis (some t) = .ok (none, []) := by
  unfold CryptoSecurityFilter.analyze_token
  rw [h]

theorem analyze_token_dict_ok (apis : List ApiBackend) (t : TokenRecord) :
    ∃ r, CryptoSecurityFilter.analyze_token apis (some t) = .ok r
        ∧ r.1 = analyze_token_out apis (some t) := by
  unfold analyze_token_out CryptoSecurityFilter.analyze_token
  cases analyze_token_inner apis (some t) with
  | ok r => exact ⟨r, rfl, rfl⟩
  | error e => exact ⟨(none, []), rfl, rfl⟩

theorem perform_inner_noaddr (classify : String → ContractAnalysis)
    (st : BlacklistManager) (t : TokenRecord) (ha : t.address = none)
    (h : ¬ VolumeAnalyzer.analyze_volume_script (extractVolumeData t) < 1/2) :
    perform_inner classify st (some t) = .error .keyErr := by
  simp only [perform_inner, ha]
  rw [if_neg h]

theorem analyze_token_noaddr (apis : List ApiBackend) (t : TokenRecord)
    (hat : t.address = none) :
    CryptoSecurityFilter.analyze_token apis (some t) = .ok (none, []) := by
  apply analyze_token_catch apis t PyErr.keyErr
  simp only [analyze_token_inner, hat]

/-- Counterexample to C4 as stated: for the input Python `None`,
`analyze_token`'s except-handler catches the inner fault but then itself
evaluates `token_data.get('address', 'N/A')`, which raises
AttributeError on `None` — the exception propagates to the caller, so
`analyze_token` does not return a value for this input.
`perform_comprehensive_analysis` does return `None` for the same
input. -/
theorem analyze_token_raises_on_none :
    CryptoSecurityFilter.analyze_token [] none = .error .attrErr
    ∧ perform_comprehensive_analysis stubLow bm0 none = (none, bm0, []) := by
  exact ⟨rfl, perform_catch stubLow bm0 none .attrErr rfl⟩

/-- C4 amended: `perform_comprehensive_analysis` returns a value for
every input (including `None` and records missing `'address'`), its
except-handler converting any inner error into the `None` result with
the store unchanged.  `analyze_token` does so for every dictionary input
(including those missing `'address'`), but for the non-dict input `None`
its except-handler itself raises AttributeError, which propagates to the
caller. -/
theorem pipeline_never_raises :
    (∀ classify st input e, perform_inner classify st input = .error e →
        perform_comprehensive_analysis classify st input = (none, st, []))
    ∧ (∀ classify st, perform_comprehensive_analysis classify st none = (none, st, []))
    ∧ (∀ classify st t, t.address = none →
        perform_comprehensive_analysis classify st (some t) = (none, st, []))
    ∧ (∀ apis t e, analyze_token_inner apis (some t) = .error e →
        CryptoSecurityFilter.analyze_token apis (some t) = .ok (none, []))
    ∧ (∀ apis t, ∃ r, CryptoSecurityFilter.analyze_token apis (some t) = .ok r)
    ∧ (∀ apis, CryptoSecurityFilter.analyze_token apis none = .error .attrErr) := by
  refine ⟨perform_catch, ?_, ?_, analyze_token_catch, ?_, fun _ => rfl⟩
  · intro classify st
    exact perform_catch classify st none .attrErr rfl
  · intro classify st t ha
    by_cases h : VolumeAnalyzer.analyze_volume_script (extractVolumeData t) < 1/2
    · exact perform_volume_reject classify st t h
    · exact perform_catch classify st (some t) .keyErr
        (perform_inner_noaddr classify st t ha h)
  · intro apis t
    obtain ⟨r, hr, -⟩ := analyze_token_dict_ok apis t
    exact ⟨r, hr⟩

/-- Witness for the amended C4 at the input `None` and at a dictionary
without an address. -/
theorem pipeline_never_raises_witness :
    perform_inner stubLow bm0 none = .error .attrErr
    ∧ perform_comprehensive_analysis stubLow bm0 none = (none, bm0, [])
    ∧ tokNoAddr.address = none
    ∧ perform_comprehensive_analysis stubLow bm0 (some tokNoAddr) = (none, bm0, [])
    ∧ analyze_token_inner apisStub (some tokNoAddr) = .error .keyErr
    ∧ CryptoSecurityFilter.analyze_token apisStub (some tokNoAddr) = .ok (none, [])
    ∧ CryptoSecurityFilter.analyze_token apisStub none = .error .attrErr := by
  refine ⟨rfl, ?_, rfl, ?_, rfl, ?_, ?_⟩
  · exact pipeline_never_raises.1 stubLow bm0 none .attrErr rfl
  · exact pipeline_never_raises.2.2.1 stubLow bm0 tokNoAddr rfl
  · exact pipeline_never_raises.2.2.2.1 apisStub tokNoAddr .keyErr rfl
  · exact pipeline_never_raises.2.2.2.2.2 apisStub

/-- C9: the placeholder `_calculate_risk_level` returns `MEDIUM_RISK` for
every combination of API results and volume score, so every token
accepted by `analyze_token` carries the string `"MEDIUM_RISK"` as its
`'risk_level'`. -/
theorem risk_level_constant :
    (∀ api_results volume_score,
        CryptoSecurityFilter.calculate_risk_level api_results volume_score
          = ContractRisk.MEDIUM_RISK)
    ∧ (∀ apis input r trace,
        CryptoSecurityFilter.analyze_token apis input = .ok (some r, trace) →
          r.risk_level = "MEDIUM_RISK") := by
  refine ⟨fun _ _ => rfl, ?_⟩
  intro apis input r trace h
  match input with
  | none =>
      rw [show CryptoSecurityFilter.analyze_token apis none
            = .error .attrErr from rfl] at h
      simp at h
  | some t =>
      match hat : t.address with
      | none =>
          rw [analyze_token_noaddr apis t hat] at h
          simp at h
      | some a =>
          by_cases hs : VolumeAnalyzer.analyze_volume (extractVolumeData t) < 1/2
          · rw [analyze_token_volume_reject apis t a hat hs] at h
            simp at h
          · rw [analyze_token_pass apis t a hat hs] at h
            have h1 := Option.some.inj (congrArg Prod.fst (Except.ok.inj h))
            rw [← h1]

/-- Witness for C9 at the accepted scenario-1 token. -/
theorem risk_level_constant_witness :
    CryptoSecurityFilter.calculate_risk_level (APIManager.analyze_token apisStub "0xAAA") 1
        = ContractRisk.MEDIUM_RISK
    ∧ ({ token := tokAccept, api_analysis := APIManager.analyze_token apisStub "0xAAA",
         volume_score := VolumeAnalyzer.analyze_volume (extractVolumeData tokAccept),
         risk_level := "MEDIUM_RISK" } : AnalysisResult).risk_level = "MEDIUM_RISK" := by
  have hs : ¬ VolumeAnalyzer.analyze_volume (extractVolumeData tokAccept) < 1/2 := by
    rw [plain_score_tokAccept]; norm_num
  have hpass := analyze_token_pass apisStub tokAccept "0xAAA" rfl hs
  exact ⟨risk_level_constant.1 _ _,
    risk_level_constant.2 apisStub (some tokAccept) _ _ hpass⟩

theorem attempt_addr (resp : Option RugResponse) (addr : String)
    (a : ContractAnalysis)
    (h : RugCheckAPI.check_contract_attempt resp addr = some a) :
    a.token_address = addr := by
  match resp with
  | none => simp [RugCheckAPI.check_contract_attempt] at h
  | some r =>
      simp only [RugCheckAPI.check_contract_attempt] at h
      match hr : ContractRisk.fromName r.risk_level with
      | none => rw [hr] at h; simp at h
      | some rl =>
          rw [hr] at h
          have := Option.some.inj h
          rw [← this]

/-- C7: `check_contract` never raises: it is total, the returned analysis
always carries the requested address, and whenever the lookup attempt
fails it returns the fail-closed default — HIGH_RISK, all boolean flags
false, volume score 0, empty issue list. -/
theorem check_contract_fail_closed :
    (∀ resp addr, (RugCheckAPI.check_contract resp addr).token_address = addr)
    ∧ (∀ resp addr, RugCheckAPI.check_contract_attempt resp addr = none →
        RugCheckAPI.check_contract resp addr =
          { token_address := addr, risk_level := .HIGH_RISK,
            is_honeypot := false, is_verified := false, is_bundled := false,
            volume_legitimacy_score := 0, potential_issues := [] }) := by
  constructor
  · intro resp addr
    unfold RugCheckAPI.check_contract
    match h : RugCheckAPI.check_contract_attempt resp addr with
    | some a => exact attempt_addr resp addr a h
    | none => rfl
  · intro resp addr h
    unfold RugCheckAPI.check_contract
    rw [h]

/-- Witness for C7: a lookup that fails outright yields the defaulted
analysis. -/
theorem check_contract_fail_closed_witness :
    RugCheckAPI.check_contract_attempt none "0xZZZ" = none
    ∧ RugCheckAPI.check_contract none "0xZZZ" =
        { token_address := "0xZZZ", risk_level := .HIGH_RISK,
          is_honeypot := false, is_verified := false, is_bundled := false,
          volume_legitimacy_score := 0, potential_issues := [] } := by
  exact ⟨rfl, check_contract_fail_closed.2 none "0xZZZ" rfl⟩

theorem add_tokens_set (st : BlacklistManager) (a : String) (ha : a ≠ "") :
    (st.add_to_blacklist "tokens" a).blacklists.tokens
      = insert a.toLower st.blacklists.tokens := by
  unfold BlacklistManager.add_to_blacklist
  rw [if_neg ha]
  simp [Blacklists.getCat, Blacklists.setCat]

theorem add_dev_tokens_eq (st : BlacklistManager) (d : String) :
    (st.add_to_blacklist "developers" d).blacklists.tokens
      = st.blacklists.tokens := by
  unfold BlacklistManager.add_to_blacklist
  by_cases hd : d = ""
  · rw [if_pos hd]
  · rw [if_neg hd]
    simp [Blacklists.getCat, Blacklists.setCat]

theorem is_blacklisted_tokens (m : BlacklistManager) (x : String) :
    m.is_blacklisted "tokens" x = decide (x.toLower ∈ m.blacklists.tokens) := by
  unfold BlacklistManager.is_blacklisted
  simp [Blacklists.getCat]

/-- Counterexample to C1 as stated: for a token whose address is the
empty string, the security-concern rejection still returns `None`, but
`add_to_blacklist` refuses the empty address, so the token address is not
a member of the `'tokens'` blacklist afterwards. -/
theorem risk_reject_blacklists_counterexample :
    ¬ VolumeAnalyzer.analyze_volume_script (extractVolumeData tokEmptyAddr) < 1/2
    ∧ (stubHigh "").risk_level = ContractRisk.HIGH_RISK
    ∧ (perform_comprehensive_analysis stubHigh bm0 (some tokEmptyAddr)).1 = none
    ∧ (perform_comprehensive_analysis stubHigh bm0 (some tokEmptyAddr)).2.1.is_blacklisted
        "tokens" "" = false := by
  have hs : ¬ VolumeAnalyzer.analyze_volume_script (extractVolumeData tokEmptyAddr) < 1/2 := by
    rw [score_tokEmptyAddr]; norm_num
  have hc : (stubHigh "").is_bundled = true
      ∨ (stubHigh "").risk_level = ContractRisk.HIGH_RISK
      ∨ (stubHigh "").risk_level = ContractRisk.DANGEROUS := Or.inr (Or.inl rfl)
  have hp := perform_pass_risk stubHigh bm0 tokEmptyAddr "" rfl hs hc
  refine ⟨hs, rfl, by rw [hp], ?_⟩
  rw [hp, is_blacklisted_tokens]
  rw [show (bm0.add_to_blacklist "tokens" "").add_to_blacklist "developers"
        (tokEmptyAddr.developer_address.getD "") = bm0 from rfl]
  simp [bm0, BlacklistManager.load, Blacklists.empty]

/-- C1 amended: for every token with a nonempty address that passes the
volume check, if the classifier reports it bundled or HIGH_RISK or
DANGEROUS, the pipeline returns `None` and the lowercased token address
is afterwards a member of the `'tokens'` blacklist. -/
theorem risk_reject_blacklists (classify : String → ContractAnalysis)
    (st : BlacklistManager) (t : TokenRecord) (a : String)
    (ha : t.address = some a) (hne : a ≠ "")
    (hs : ¬ VolumeAnalyzer.analyze_volume_script (extractVolumeData t) < 1/2)
    (hc : (classify a).is_bundled = true
        ∨ (classify a).risk_level = ContractRisk.HIGH_RISK
        ∨ (classify a).risk_level = ContractRisk.DANGEROUS) :
    (perform_comprehensive_analysis classify st (some t)).1 = none
    ∧ (perform_comprehensive_analysis classify st (some t)).2.1.is_blacklisted
        "tokens" a = true := by
  have hp := perform_pass_risk classify st t a ha hs hc
  refine ⟨by rw [hp], ?_⟩
  rw [hp, is_blacklisted_tokens]
  simp only [add_dev_tokens_eq, add_tokens_set st a hne]
  simp [Finset.mem_insert_self]

/-- Witness for the amended C1: the accept-worthy token with a high-risk
classifier verdict ends up on the `'tokens'` blacklist. -/
theorem risk_reject_blacklists_witness :
    tokAccept.address = some "0xAAA"
    ∧ "0xAAA" ≠ ""
    ∧ ¬ VolumeAnalyzer.analyze_volume_script (extractVolumeData tokAccept) < 1/2
    ∧ (stubHigh "0xAAA").risk_level = ContractRisk.HIGH_RISK
    ∧ (perform_comprehensive_analysis stubHigh bm0 (some tokAccept)).1 = none
    ∧ (perform_comprehensive_analysis stubHigh bm0 (some tokAccept)).2.1.is_blacklisted
        "tokens" "0xAAA" = true := by
  have hs : ¬ VolumeAnalyzer.analyze_volume_script (extractVolumeData tokAccept) < 1/2 := by
    rw [score_tokAccept]; norm_num
  have hne : "0xAAA" ≠ "" := by simp
  have h := risk_reject_blacklists stubHigh bm0 tokAccept "0xAAA" rfl hne hs
    (Or.inr (Or.inl rfl))
  exact ⟨rfl, hne, hs, rfl, h.1, h.2⟩

/-- C8: both batch entry points return exactly the per-token results with
the rejections dropped — survivors keep their input order (the output is
the `filterMap` of the per-token outcome sequence) and the output is
never longer than the input.  The advisory batch entry point is
quantified over sequences of token records (dictionaries), the claim's
input space, on which every `analyze_token` call returns a value. -/
theorem batch_subsequence :
    (∀ classify st ts,
        (filter_tokens classify st ts).1
            = ((analyzeEachSpec classify st ts).1).filterMap id
        ∧ (filter_tokens classify st ts).2 = (analyzeEachSpec classify st ts).2
        ∧ (filter_tokens classify st ts).1.length ≤ ts.length)
    ∧ (∀ apis (ts : List TokenRecord),
        CryptoSecurityFilter.analyze_tokens apis (ts.map some)
            = .ok ((ts.map fun t => analyze_token_out apis (some t)).filterMap id)
        ∧ ((ts.map fun t => analyze_token_out apis (some t)).filterMap id).length
            ≤ ts.length) := by
  constructor
  · intro classify st ts
    induction ts generalizing st with
    | nil => exact ⟨rfl, rfl, Nat.le_refl 0⟩
    | cons t ts ih =>
        obtain ⟨ih1, ih2, ih3⟩ := ih (perform_comprehensive_analysis classify st t).2.1
        simp only [filter_tokens, analyzeEachSpec, List.filterMap_cons]
        cases hr : (perform_comprehensive_analysis classify st t).1 with
        | some a =>
            refine ⟨by rw [ih1]; rfl, by rw [ih2], ?_⟩
            simpa using Nat.succ_le_succ ih3
        | none =>
            exact ⟨ih1, ih2, Nat.le_succ_of_le ih3⟩
  · intro apis ts
    constructor
    · induction ts with
      | nil => rfl
      | cons t ts ih =>
          obtain ⟨r, hr, hr1⟩ := analyze_token_dict_ok apis t
          simp only [List.map_cons, List.filterMap_cons,
            CryptoSecurityFilter.analyze_tokens, hr, ← hr1, id_eq]
          cases hro : r.1 with
          | some a => rw [ih]
          | none => exact ih
    · simpa using
        List.length_filterMap_le id (ts.map fun t => analyze_token_out apis (some t))

theorem allLowercase_insert (s : Finset String) (a : String)
    (h : AllLowercase s) : AllLowercase (insert a.toLower s) := by
  intro x hx
  rcases Finset.mem_insert.mp hx with hx | hx
  · rw [hx]; exact stringToLower_idem a
  · exact h x hx

theorem allLowercase_erase (s : Finset String) (a : String)
    (h : AllLowercase s) : AllLowercase (s.erase a) :=
  fun x hx => h x (Finset.mem_of_mem_erase hx)

theorem allLowercase_empty : AllLowercase (∅ : Finset String) :=
  fun x hx => absurd hx (Finset.not_mem_empty x)

theorem setCat_lowerInv (b : Blacklists) (ty : String) (s : Finset String)
    (hb : b.LowerInv) (hs : AllLowercase s) : (b.setCat ty s).LowerInv := by
  obtain ⟨h1, h2, h3, h4⟩ := hb
  unfold Blacklists.setCat
  split_ifs
  · exact ⟨hs, h2, h3, h4⟩
  · exact ⟨h1, hs, h3, h4⟩
  · exact ⟨h1, h2, hs, h4⟩
  · exact ⟨h1, h2, h3, hs⟩
  · exact ⟨h1, h2, h3, h4⟩

theorem getCat_allLowercase (b : Blacklists) (ty : String) (s : Finset String)
    (hb : b.LowerInv) (h : b.getCat ty = some s) : AllLowercase s := by
  obtain ⟨h1, h2, h3, h4⟩ := hb
  unfold Blacklists.getCat at h
  split_ifs at h
  · injection h with h'; rw [← h']; exact h1
  · injection h with h'; rw [← h']; exact h2
  · injection h with h'; rw [← h']; exact h3
  · injection h with h'; rw [← h']; exact h4

theorem add_preserves_lower (m : BlacklistManager) (ty a : String)
    (h : m.blacklists.LowerInv) :
    (m.add_to_blacklist ty a).blacklists.LowerInv := by
  unfold BlacklistManager.add_to_blacklist
  by_cases he : a = ""
  · rw [if_pos he]; exact h
  · rw [if_neg he]
    cases hg : m.blacklists.getCat ty with
    | none => exact h
    | some s =>
        exact setCat_lowerInv _ _ _ h
          (allLowercase_insert s a (getCat_allLowercase _ _ _ h hg))

theorem remove_preserves_lower (m : BlacklistManager) (ty a : String)
    (h : m.blacklists.LowerInv) :
    (m.remove_from_blacklist ty a).blacklists.LowerInv := by
  unfold BlacklistManager.remove_from_blacklist
  cases hg : m.blacklists.getCat ty with
  | none => exact h
  | some s =>
      exact setCat_lowerInv _ _ _ h
        (allLowercase_erase s _ (getCat_allLowercase _ _ _ h hg))

theorem clear_preserves_lower (m : BlacklistManager) (ty : String)
    (h : m.blacklists.LowerInv) :
    (m.clear_blacklist ty).blacklists.LowerInv := by
  unfold BlacklistManager.clear_blacklist
  cases hg : m.blacklists.getCat ty with
  | none => exact h
  | some s => exact setCat_lowerInv _ _ _ h allLowercase_empty

theorem applyOps_preserves_lower (ops : List BlOp) (m : BlacklistManager)
    (h : m.blacklists.LowerInv) :
    (m.applyOps ops).blacklists.LowerInv := by
  induction ops generalizing m with
  | nil => exact h
  | cons op ops ih =>
      cases op with
      | add ty a => exact ih _ (add_preserves_lower m ty a h)
      | remove ty a => exact ih _ (remove_preserves_lower m ty a h)
      | clear ty => exact ih _ (clear_preserves_lower m ty h)

theorem load_lower (f : Option BlacklistFile)
    (hf : f = none ∨ ∃ bf, f = some bf ∧ bf.LowerInv) :
    (BlacklistManager.load f).blacklists.LowerInv := by
  rcases hf with rfl | ⟨bf, rfl, hbf⟩
  · exact ⟨allLowercase_empty, allLowercase_empty, allLowercase_empty, allLowercase_empty⟩
  · obtain ⟨g1, g2, g3, g4⟩ := hbf
    refine ⟨fun x hx => g1 x ?_, fun x hx => g2 x ?_, fun x hx => g3 x ?_,
      fun x hx => g4 x ?_⟩ <;> exact List.mem_toFinset.mp hx

/-- Counterexample to C6 as stated: `_load_blacklists` applies no
lowercase normalization, so the state loaded from a file holding the
non-lowercase entry "0xABC" stores that entry verbatim — and the
case-normalizing membership test then fails to find it. -/
theorem blacklist_lowercase_counterexample :
    "0xABC" ∈ (BlacklistManager.load (some fileUpper)).blacklists.tokens
    ∧ "0xABC".toLower ≠ "0xABC"
    ∧ (BlacklistManager.load (some fileUpper)).is_blacklisted "tokens" "0xABC" = false := by
  refine ⟨by decide, ?_, ?_⟩
  · rw [String.toLower, String.map_eq]; decide
  · rw [is_blacklisted_tokens]
    rw [String.toLower, String.map_eq]
    decide

/-- C6 amended: every state reachable from a load of a missing/corrupt
file or of an all-lowercase file through any sequence of
add/remove/clear operations stores only lowercase addresses; membership
testing and insertion are case-insensitive because `is_blacklisted` and
`add_to_blacklist` normalize their address argument to lowercase.  Load
itself does not normalize, so the guarantee does not extend to files with
non-lowercase entries. -/
theorem blacklist_lowercase_invariant :
    (∀ f ops, (f = none ∨ ∃ bf, f = some bf ∧ bf.LowerInv) →
        ((BlacklistManager.load f).applyOps ops).blacklists.LowerInv)
    ∧ (∀ m ty a b, a.toLower = b.toLower →
        BlacklistManager.is_blacklisted m ty a = BlacklistManager.is_blacklisted m ty b)
    ∧ (∀ m ty a b, a ≠ "" → b ≠ "" → a.toLower = b.toLower →
        BlacklistManager.add_to_blacklist m ty a = BlacklistManager.add_to_blacklist m ty b) := by
  refine ⟨?_, ?_, ?_⟩
  · intro f ops hf
    exact applyOps_preserves_lower ops _ (load_lower f hf)
  · intro m ty a b hab
    unfold BlacklistManager.is_blacklisted
    cases m.blacklists.getCat ty with
    | none => rfl
    | some s => rw [hab]
  · intro m ty a b hea heb hab
    unfold BlacklistManager.add_to_blacklist
    rw [if_neg hea, if_neg heb]
    cases m.blacklists.getCat ty with
    | none => rfl
    | some s => rw [hab]

/-- Witness for the amended C6: a mixed-case add on a fresh store keeps
every stored address lowercase, and membership testing identifies the two
casings. -/
theorem blacklist_lowercase_invariant_witness :
    ((BlacklistManager.load none).applyOps [BlOp.add "tokens" "0xAbC"]).blacklists.LowerInv
    ∧ (BlacklistManager.load none).is_blacklisted "tokens" "0xABC"
        = (BlacklistManager.load none).is_blacklisted "tokens" "0xabc" := by
  have hab : ("0xABC" : String).toLower = ("0xabc" : String).toLower := by
    simp only [String.toLower, String.map_eq]
    decide
  exact ⟨blacklist_lowercase_invariant.1 none [BlOp.add "tokens" "0xAbC"] (Or.inl rfl),
    blacklist_lowercase_invariant.2.1 _ "tokens" "0xABC" "0xabc" hab⟩
